import Mathlib

/-!
Shallow embedding of the error-classification and observability layer of a
small actix-web + sentry calculator service (src/main.rs and
src/middleware.rs), together with theorems settling the specified
properties of the classifier, the telemetry sink filter, the request
handlers and the logging middleware.
-/

set_option autoImplicit false

namespace SentryDemo

/-- Metadata values attached to telemetry events (the subset of the
sentry/serde json value space the program uses: integers via
status_code.as_u16().into(), with other shapes kept so the filter's
as_u64 fallback is faithfully representable). -/
inductive Value where
  | int (i : Int)
  | str (s : String)
  | bool (b : Bool)
  | null
deriving DecidableEq

/-- as_u64 on a json value: some for a non-negative integer, none
otherwise (mirrors serde_json::Value::as_u64 as used on line 108 of
main.rs). -/
def Value.as_u64 : Value → Option Nat
  | .int i => if 0 ≤ i then some i.toNat else none
  | _ => none

/-- A telemetry event as seen by the sink: its extra-metadata map
(String keys to values, modelled as an association list looked up with
List.lookup) and an optional message (set for events coming from the
tracing bridge). The error payload carried by capture_error is not
needed by any property and is not modelled. -/
structure Event where
  extra : List (String × Value)
  message : Option String
deriving DecidableEq

/-- The before_send hook installed in init_tracing (main.rs lines
106-116): when the event's extra map has a "status_code" entry, read it
as a u64 defaulting to 200, and drop the event when the value lies in
[400,500); otherwise pass the event through. -/
def before_send (event : Event) : Option Event :=
  match event.extra.lookup "status_code" with
  | some v =>
      let status_code := (Value.as_u64 v).getD 200
      if 400 ≤ status_code ∧ status_code < 500 then none
      else some event
  | none => some event

/-- The Error enum of main.rs lines 18-34. The transparent wrapper
variants carry their wrapped cause, modelled as its textual rendering.
Spec naming: MissingSentryDsn is the spec's MissingConfiguration, Actix
is UpstreamTransportFailure, Io is IOFailure; DotEnvy is a fifth
wrapped-cause variant present in the source. -/
inductive Error where
  | DivideByZero
  | MissingSentryDsn
  | Actix (cause : String)
  | DotEnvy (cause : String)
  | Io (cause : String)
deriving DecidableEq

/-- HTTPError of main.rs lines 36-40: the classified status code
(StatusCode modelled as its numeric value) plus the boxed source error. -/
structure HTTPError where
  status_code : Nat
  source : Error
deriving DecidableEq

/-- The pure classification core of From Error for HTTPError (main.rs
lines 52-61): DivideByZero gets BAD_REQUEST (400), every other variant
falls to INTERNAL_SERVER_ERROR (500). -/
def HTTPError.fromError (err : Error) : HTTPError :=
  match err with
  | .DivideByZero => { status_code := 400, source := err }
  | _ => { status_code := 500, source := err }

/-- Severity tag of spec section 4.1: ClientFault for 4xx, ServerFault
for 5xx. The source does not reify severity; it is determined by the
status-code range. -/
inductive Severity where
  | ClientFault
  | ServerFault
deriving DecidableEq

/-- Severity of a status code: spec section 4.1 vocabulary (4xx is
ClientFault, 5xx is ServerFault). -/
def severityOf (status_code : Nat) : Severity :=
  if status_code < 500 then .ClientFault else .ServerFault

/-- The spec's classify function: the (status_code, severity) pair the
code assigns to an error kind. -/
def classify (err : Error) : Nat × Severity :=
  ((HTTPError.fromError err).status_code,
   severityOf (HTTPError.fromError err).status_code)

/-- A sentry scope: the mutable extra-metadata map carried by the
(thread-local) hub. -/
structure Scope where
  extra : List (String × Value)
deriving DecidableEq

/-- scope.set_extra (main.rs line 65): insert-or-overwrite of a key in
the scope's extra map. -/
def Scope.set_extra (s : Scope) (k : String) (v : Value) : Scope :=
  { extra := (k, v) :: s.extra.filter (fun p => ¬ p.1 = k) }

/-- sentry::with_scope + capture_error (main.rs lines 63-68): push a
clone of the current scope, set its "status_code" extra to the
classified status, and capture the error as one event carrying the
pushed scope's extras. -/
def with_scope_capture (current : Scope) (http_error : HTTPError) : Event :=
  { extra := (current.set_extra "status_code" (Value.int http_error.status_code)).extra,
    message := none }

/-- From Error for HTTPError in full (main.rs lines 50-72): classify the
error, then offer exactly one event to sentry with the status code
attached inside a scope pushed for that single capture; with_scope pops
the pushed scope afterwards, so the ambient scope is returned unchanged. -/
def from_error (current : Scope) (err : Error) : HTTPError × List Event × Scope :=
  let http_error := HTTPError.fromError err
  (http_error, [with_scope_capture current http_error], current)

/-- The single event the conversion offers to sentry when the ambient
scope is fresh (a request that has attached no other extras). -/
def fromErrorEvent (err : Error) : Event :=
  with_scope_capture { extra := [] } (HTTPError.fromError err)

/-- The telemetry offers made by one run of the conversion on a fresh
scope. -/
def fromErrorOffers (err : Error) : List Event :=
  (from_error { extra := [] } err).2.1

/-- tracing log levels (the ones the program distinguishes). -/
inductive Level where
  | ERROR
  | WARN
  | INFO
  | DEBUG
  | TRACE
deriving DecidableEq

/-- One structured log emission: level, recorded fields and the message
literal (none when the tracing call provides no message, as in the
middleware's success-with-error branch). -/
structure LogEntry where
  level : Level
  fields : List (String × String)
  message : Option String
deriving DecidableEq

/-- The sentry_tracing EventFilter outcomes used by init_tracing. -/
inductive EventFilter where
  | Event
  | Ignore
deriving DecidableEq

/-- The event_filter installed on the sentry tracing layer (main.rs
lines 121-124): ERROR-level tracing events become sentry events, every
other level is ignored. -/
def sentry_event_filter (level : Level) : EventFilter :=
  match level with
  | .ERROR => .Event
  | _ => .Ignore

/-- The telemetry offers generated from a list of log emissions by the
sentry tracing layer: each ERROR-level log is forwarded as one event
(no "status_code" extra is attached on this path). -/
def tracingOffers (logs : List LogEntry) : List Event :=
  logs.filterMap fun l =>
    match sentry_event_filter l.level with
    | .Event => some { extra := [], message := l.message }
    | .Ignore => none

/-- Wrapping two's-complement semantics of i32 addition, over Int. -/
def wrap32 (n : Int) : Int := (n + 2 ^ 31) % 2 ^ 32 - 2 ^ 31

/-- add (main.rs lines 80-82): always succeeds with the i32 sum. -/
def add (x y : Int) : Except Error Int := .ok (wrap32 (x + y))

/-- div (main.rs lines 92-98): DivideByZero when y = 0, otherwise, as
the source is written, the i32 sum x + y (not the quotient). -/
def div (x y : Int) : Except Error Int :=
  if y = 0 then .error Error.DivideByZero else .ok (wrap32 (x + y))

/-- actix-web's default ResponseError::status_code, inherited by the
empty impl ResponseError for HTTPError at main.rs line 74: the default
implementation returns INTERNAL_SERVER_ERROR (500) regardless of the
receiver, so the response status line never consults the struct's
status_code field. -/
def HTTPError.response_status (_err : HTTPError) : Nat := 500

deriving instance DecidableEq for Except

/-- The observable outcome of one handler invocation: its result, the
log entries it emitted, and the telemetry offers made while handling it
(ERROR-level logs forwarded by the tracing bridge, plus the capture
performed inside the From conversion when the arithmetic fails). -/
structure HandlerRun where
  result : Except HTTPError Int
  logs : List LogEntry
  offers : List Event
deriving DecidableEq

/-- handle_add (main.rs lines 147-160): logs the info line, then an
ERROR-level "add" line, then runs add; the question-mark operator
converts an arithmetic Error through from_error (never reached, since
add always succeeds). -/
def handle_add (x y : Int) : HandlerRun :=
  let logs : List LogEntry :=
    [{ level := .INFO, fields := [("method", "handle_add")],
       message := some "adding two numbers together" },
     { level := .ERROR, fields := [], message := some "add" }]
  match add x y with
  | .ok sum =>
      { result := .ok sum, logs := logs, offers := tracingOffers logs }
  | .error e =>
      { result := .error (HTTPError.fromError e), logs := logs,
        offers := tracingOffers logs ++ fromErrorOffers e }

/-- handle_div (main.rs lines 194-206): logs the info line, runs div;
on failure the question-mark operator converts the Error through
from_error, which classifies it and makes the capture offer. The offers
field covers the handler stage only; the request's complete offer
stream, including the event bridged from the middleware's error log, is
div_request below. -/
def handle_div (x y : Int) : HandlerRun :=
  let logs : List LogEntry :=
    [{ level := .INFO, fields := [("method", "handle_div")],
       message := some "Dividing a number by another" }]
  match div x y with
  | .ok quot =>
      { result := .ok quot, logs := logs, offers := tracingOffers logs }
  | .error e =>
      { result := .error (HTTPError.fromError e), logs := logs,
        offers := tracingOffers logs ++ fromErrorOffers e }

/-- A ServiceResponse as the middleware sees it: the inner response
body plus the optional error the inner layer attached when it built the
response from a failed handler (res.response().error()); the error is
modelled by its textual rendering. -/
structure ServiceResponse (B : Type) where
  status : Nat
  error : Option String
  body : B

/-- MiddlewareService::call (middleware.rs lines 43-61), applied to the
completed inner future: on Ok(res), if the response carries an embedded
error, emit one ERROR log with the path and the error, and pass res
through unchanged; on Err(err), emit one ERROR log with the path, the
error and the "Unhandled server error" message, and propagate the same
error value. -/
def MiddlewareService.call {B : Type} (path : String)
    (inner : Except String (ServiceResponse B)) :
    Except String (ServiceResponse B) × List LogEntry :=
  match inner with
  | .ok res =>
      match res.error with
      | some err =>
          (.ok res,
           [{ level := .ERROR, fields := [("path", path), ("err", err)],
              message := none }])
      | none => (.ok res, [])
  | .error err =>
      (.error err,
       [{ level := .ERROR, fields := [("path", path), ("err", err)],
          message := some "Unhandled server error" }])

/-- Display text of an Error, from the thiserror attributes at main.rs
lines 18-34: the literal message for the two unit variants, the wrapped
cause's own text for the transparent ones. -/
def Error.render : Error → String
  | .DivideByZero => "cannot divide by zero"
  | .MissingSentryDsn => "SENRTY_DSN is unset"
  | .Actix cause => cause
  | .DotEnvy cause => cause
  | .Io cause => cause

/-- Display of an HTTPError (main.rs lines 44-48): the status and the
source between braces; the status is rendered by its numeric code (the
canonical-reason suffix of the StatusCode rendering is immaterial to
every property, as is the exact shape of this string). -/
def HTTPError.render (e : HTTPError) : String :=
  "\x7b " ++ toString e.status_code ++ ", " ++ Error.render e.source ++ " \x7d"

/-- How actix turns a handler result into the ServiceResponse the
middleware observes: a success is a 200 json response with no embedded
error; a failed handler's HTTPError is turned by the inherited default
error_response into a response whose status is the default
status_code() (500) and which carries the error embedded, so
res.response().error() is Some for it. -/
def handlerResponse (r : Except HTTPError Int) : ServiceResponse Unit :=
  match r with
  | .ok _ => { status := 200, error := none, body := () }
  | .error he =>
      { status := he.response_status, error := some he.render, body := () }

/-- The complete observable run of one request: the status on the wire,
all log emissions (handler's and middleware's) and all telemetry offers
(ERROR-level logs forwarded by the tracing bridge, plus the capture
made inside the From conversion on a handled failure). -/
structure RequestRun where
  wire_status : Nat
  logs : List LogEntry
  offers : List Event
deriving DecidableEq

/-- The end-to-end run of one request to the div endpoint: handle_div
runs inside the middleware; its result is converted by actix into the
ServiceResponse the middleware observes, the middleware's Ok branch
logs the embedded error at ERROR level when there is one, and the
sentry tracing layer bridges every ERROR-level log into a further
telemetry offer (one that carries no status_code extra: the with_scope
attachment was popped at the end of the capture, and log fields do not
populate the extra map). -/
def div_request (path : String) (x y : Int) : RequestRun :=
  let run := handle_div x y
  let res := handlerResponse run.result
  let mw := MiddlewareService.call path (Except.ok res)
  { wire_status := res.status,
    logs := run.logs ++ mw.2,
    offers := run.offers ++ tracingOffers mw.2 }

/-- The sentry event bridged from the middleware's ERROR log on a
handled failure: its path/err fields do not populate the extra map, so
the event carries no status_code (and before_send therefore passes it
through) whatever the path was. -/
def bridgedErrorLogEvent : Event := { extra := [], message := none }

/-- One worker thread's sequential execution of the requests scheduled
on it, with the full per-request offer stream: the classification block
at main.rs lines 63-68 (synchronous, thread-local hub, scope restored
by with_scope after the capture) followed by the middleware's bridged
error-log event once the inner future completes. Scope restoration
makes every offer's content independent of how requests interleave, so
the stream is grouped per request without loss. -/
def runThread (hub : Scope) : List Error → List Event
  | [] => []
  | e :: rest =>
      ((from_error hub e).2.1 ++ [bridgedErrorLogEvent])
        ++ runThread (from_error hub e).2.2 rest

/-- A concurrent run of many failing requests: a schedule assigns each
request to one worker thread; threads share no scope state (the hub is
thread-local and starts each thread with an empty scope), so the
observable offers are the per-thread offer streams. -/
def runConcurrent (schedule : List (List Error)) : List Event :=
  (schedule.map (runThread { extra := [] })).flatten

/-- A hundred-request mixed workload scheduled across two worker
threads, interleaving DivideByZero and MissingSentryDsn failures in
opposite orders on the two threads. -/
def mixedSchedule : List (List Error) :=
  [List.replicate 25 Error.DivideByZero ++ List.replicate 25 Error.MissingSentryDsn,
   List.replicate 25 Error.MissingSentryDsn ++ List.replicate 25 Error.DivideByZero]

/-- The tracing bridge forwards the middleware's error log as exactly
the untagged bridged event, for every path and error text. -/
theorem tracingOffers_middleware_log (path err : String) :
    tracingOffers
        [{ level := .ERROR, fields := [("path", path), ("err", err)],
           message := none }] = [bridgedErrorLogEvent] :=
  rfl

/-- Each classification block leaves the thread's scope unchanged and
contributes the capture built from its own error followed by the
untagged bridged middleware event, so a thread's offer stream is the
per-request pair of offers of each of its own requests. -/
theorem runThread_eq_map (hub : Scope) (es : List Error) :
    runThread hub es =
      (es.map fun e =>
        [with_scope_capture hub (HTTPError.fromError e), bridgedErrorLogEvent]).flatten := by
  induction es with
  | nil => rfl
  | cons e rest ih => simp [runThread, from_error, ih]

/-- C1: the classifier is total over the closed error set and returns
exactly the section 4.1 table: DivideByZero is classified 400 /
ClientFault, and MissingSentryDsn (the spec's MissingConfiguration),
Actix (UpstreamTransportFailure), Io (IOFailure) — and the source's
extra DotEnvy variant — are each classified 500 / ServerFault; the
enumeration covers every constructor, so no variant is left to a
default and no input can fail to classify. -/
theorem classify_returns_exact_table :
    classify Error.DivideByZero = (400, Severity.ClientFault) ∧
    classify Error.MissingSentryDsn = (500, Severity.ServerFault) ∧
    (∀ s : String, classify (Error.Actix s) = (500, Severity.ServerFault)) ∧
    (∀ s : String, classify (Error.DotEnvy s) = (500, Severity.ServerFault)) ∧
    (∀ s : String, classify (Error.Io s) = (500, Severity.ServerFault)) :=
  ⟨rfl, rfl, fun _ => rfl, fun _ => rfl, fun _ => rfl⟩

/-- C2 (code defect): the wire status line never consults the
classified status_code — the empty ResponseError impl inherits
actix-web's default status_code(), which returns 500 for every error —
so a DivideByZero failure, classified 400, is answered with a 500
response. -/
theorem response_status_ignores_classification :
    (HTTPError.fromError Error.DivideByZero).status_code = 400 ∧
    HTTPError.response_status (HTTPError.fromError Error.DivideByZero) = 500 ∧
    ∀ e : Error, HTTPError.response_status (HTTPError.fromError e) = 500 :=
  ⟨rfl, rfl, fun _ => rfl⟩

/-- C3: any event offered to the sink whose status_code metadata reads
as an unsigned integer is dropped by before_send when the value lies in
[400,500) and passed through for persistence when it is at least 500;
and the From conversion makes exactly one offer per classified failure. -/
theorem sink_filter_4xx_dropped_5xx_persisted (ev : Event) (v : Value) (sc : Nat)
    (hlook : ev.extra.lookup "status_code" = some v)
    (hval : Value.as_u64 v = some sc) :
    (400 ≤ sc ∧ sc < 500 → before_send ev = none) ∧
    (500 ≤ sc → before_send ev = some ev) ∧
    ∀ e : Error, (fromErrorOffers e).length = 1 := by
  have hbs : before_send ev = if 400 ≤ sc ∧ sc < 500 then none else some ev := by
    unfold before_send
    rw [hlook]
    simp [hval]
  refine ⟨fun h => ?_, fun h => ?_, fun _ => rfl⟩
  · rw [hbs, if_pos h]
  · rw [hbs, if_neg (by omega)]

/-- Witness for C3: the DivideByZero capture (status 400) is dropped,
the MissingSentryDsn capture (status 500) is persisted. -/
theorem sink_filter_4xx_dropped_5xx_persisted_witness :
    before_send (fromErrorEvent Error.DivideByZero) = none ∧
    before_send (fromErrorEvent Error.MissingSentryDsn) =
      some (fromErrorEvent Error.MissingSentryDsn) := by
  constructor
  · exact (sink_filter_4xx_dropped_5xx_persisted (fromErrorEvent Error.DivideByZero)
      (Value.int 400) 400 (by decide) (by decide)).1 (by decide)
  · exact (sink_filter_4xx_dropped_5xx_persisted (fromErrorEvent Error.MissingSentryDsn)
      (Value.int 500) 500 (by decide) (by decide)).2.1 (by decide)

/-- C4 (code defect): a successful request to the add handler still
makes one telemetry offer — handle_add logs "add" at ERROR level on
every invocation and the sentry tracing layer forwards ERROR logs as
events — and that event, carrying no status_code metadata, even passes
the sink's filter. -/
theorem success_add_still_offers_telemetry :
    (handle_add 1 2).result = Except.ok 3 ∧
    (handle_add 1 2).offers.length = 1 ∧
    ((handle_add 1 2).offers.filterMap before_send).length = 1 := by decide

/-- C5 (code defect): div fails with DivideByZero exactly when y = 0,
and on a non-zero y the handler returns the sum (div 10 2 is 12, not
5), as the spec documents of the source; but the x = 10, y = 0
scenario diverges from the claim twice: the wire response is 500, not
400 (the classified 400 is never consulted by the inherited default
status_code), and one telemetry event is recorded, not zero — the
scoped 400-tagged capture is dropped by the sink, but the middleware's
ERROR log for the embedded error is bridged into an untagged event that
before_send accepts. The request does emit exactly one log entry
carrying the /api/v0/div path. -/
theorem div_error_iff_zero_scenario_diverges :
    (∀ x y : Int, div x y = Except.error Error.DivideByZero ↔ y = 0) ∧
    div 10 2 = Except.ok 12 ∧
    (HTTPError.fromError Error.DivideByZero).status_code = 400 ∧
    (div_request "/api/v0/div" 10 0).wire_status = 500 ∧
    (div_request "/api/v0/div" 10 0).offers.length = 2 ∧
    (div_request "/api/v0/div" 10 0).offers.filterMap before_send =
      [bridgedErrorLogEvent] ∧
    ((div_request "/api/v0/div" 10 0).logs.filter
        fun l => l.fields.lookup "path" = some "/api/v0/div").length = 1 := by
  refine ⟨fun x y => ?_, by decide, rfl, by decide, by decide, by decide, by decide⟩
  unfold div
  by_cases h : y = 0
  · simp [h]
  · simp [h]

/-- C6: an unhandled failure is propagated to the outer layer as the
very same error value, with exactly one ERROR-level log entry carrying
the request path and the "Unhandled server error" marker, and no
synthesized response. -/
theorem unhandled_failure_propagated_and_logged (B : Type) (path err : String) :
    @MiddlewareService.call B path (Except.error err) =
      (Except.error err,
       [{ level := Level.ERROR, fields := [("path", path), ("err", err)],
          message := some "Unhandled server error" }]) :=
  rfl

/-- C7 counterexample: classifying is not free of telemetry side
effects — converting DivideByZero offers one event to sentry as part of
the From conversion itself. -/
theorem classification_makes_a_telemetry_offer :
    fromErrorOffers Error.DivideByZero ≠ [] ∧
    (fromErrorOffers Error.DivideByZero).length = 1 := by decide

/-- C7 amended: classification is deterministic — the resulting
HTTPError, the (status_code, severity) pair and the status_code
metadata attached to the offered event depend only on the ErrorKind,
not on the ambient scope — and the ambient scope is restored after the
capture; but the conversion does perform exactly one telemetry offer. -/
theorem classification_deterministic_one_offer (e : Error) (s1 s2 : Scope) :
    (from_error s1 e).1 = (from_error s2 e).1 ∧
    classify e = ((from_error s1 e).1.status_code,
                  severityOf (from_error s1 e).1.status_code) ∧
    ((from_error s1 e).2.1.map fun ev => ev.extra.lookup "status_code") =
      ((from_error s2 e).2.1.map fun ev => ev.extra.lookup "status_code") ∧
    (from_error s1 e).2.1.length = 1 ∧
    (from_error s1 e).2.2 = s1 := by
  refine ⟨rfl, rfl, ?_, rfl, rfl⟩
  simp [from_error, with_scope_capture, Scope.set_extra, List.lookup]

/-- C8: a success whose response carries an embedded error indicator is
logged at ERROR level with the request path and the error, and the
response value is returned unchanged. -/
theorem success_embedded_error_logged_unchanged {B : Type} (path : String)
    (res : ServiceResponse B) (err : String) (h : res.error = some err) :
    MiddlewareService.call path (Except.ok res) =
      (Except.ok res,
       [{ level := Level.ERROR, fields := [("path", path), ("err", err)],
          message := none }]) := by
  simp only [MiddlewareService.call, h]

/-- Witness for C8 at a concrete erroring response. -/
theorem success_embedded_error_logged_unchanged_witness :
    MiddlewareService.call "/api/v0/div"
        (Except.ok { status := 500, error := some "boom", body := () }) =
      (Except.ok ({ status := 500, error := some "boom", body := () } :
          ServiceResponse Unit),
       [{ level := Level.ERROR,
          fields := [("path", "/api/v0/div"), ("err", "boom")],
          message := none }]) :=
  success_embedded_error_logged_unchanged "/api/v0/div" _ "boom" rfl

/-- C9: an event whose extra map has no status_code entry, or whose
status_code value does not read as an unsigned integer (the filter then
defaults it to 200), is never suppressed by before_send. -/
theorem missing_or_nonint_status_never_suppressed (ev : Event)
    (h : ev.extra.lookup "status_code" = none ∨
         ∃ v, ev.extra.lookup "status_code" = some v ∧ Value.as_u64 v = none) :
    before_send ev = some ev := by
  rcases h with h | ⟨v, hlook, hval⟩
  · unfold before_send
    rw [h]
  · unfold before_send
    rw [hlook]
    simp [hval]

/-- Witness for C9: a string-valued status_code is passed through. -/
theorem missing_or_nonint_status_never_suppressed_witness :
    before_send { extra := [("status_code", Value.str "oops")], message := none } =
      some { extra := [("status_code", Value.str "oops")], message := none } :=
  missing_or_nonint_status_never_suppressed _ (Or.inr ⟨Value.str "oops", by decide, rfl⟩)

set_option maxRecDepth 8192 in
/-- C10 (code defect): on a hundred-request concurrent mix of
DivideByZero and MissingSentryDsn failures over two worker threads, the
scoping itself is sound — every capture carries its own request's
classified status (all fifty DivideByZero captures are 400-tagged and
dropped, all fifty MissingSentryDsn captures are 500-tagged and
accepted), with no cross-request metadata bleed — but the program
diverges from the claim beyond that: each request makes two offers, not
one (the scoped capture plus the middleware's bridged error-log event),
the bridged events carry no status_code and are all accepted, so 150 of
the 200 offers are accepted, a single DivideByZero request already
records an accepted event, and a DivideByZero request's wire response
is 500, not the expected 400. -/
theorem concurrent_mix_full_offer_accounting :
    (mixedSchedule.map List.length).sum = 100 ∧
    Error.DivideByZero ∈ mixedSchedule.flatten ∧
    Error.MissingSentryDsn ∈ mixedSchedule.flatten ∧
    (runConcurrent mixedSchedule).length = 200 ∧
    ((runConcurrent mixedSchedule).filterMap before_send).length = 150 ∧
    (runConcurrent mixedSchedule).count (fromErrorEvent Error.DivideByZero) = 50 ∧
    ((runConcurrent mixedSchedule).filterMap before_send).count
      (fromErrorEvent Error.DivideByZero) = 0 ∧
    ((runConcurrent mixedSchedule).filterMap before_send).count
      (fromErrorEvent Error.MissingSentryDsn) = 50 ∧
    (runConcurrent [[Error.DivideByZero]]).filterMap before_send =
      [bridgedErrorLogEvent] ∧
    HTTPError.response_status (HTTPError.fromError Error.DivideByZero) = 500 := by
  decide

end SentryDemo
